import Mathlib

/-!
# Heimdall-cam: shallow embedding and verification

This file embeds the parts of the heimdall-cam repository (a React-Native
camera client `App.tsx` plus a Node/Express backend `server.js`,
`video-intelligence-api.js`, `services/ai-analysis.js`,
`services/emergency-dispatch.js`) that the specification talks about, and
proves or refutes the specification's claims about them.

Conventions of the embedding:
* JavaScript numbers that are used as integers (timestamps in ms, HTTP
  status codes, counters) become `Nat` or `Int`.
* `Date.now()` is modelled by an explicit `now : Nat` parameter; a request
  handler executes at a single instant.
* Fallible steps become sum types; a JS `throw` becomes an error value.
* Mutable server state (the `activeSessions` map, the file system, the GCS
  bucket) becomes an explicit state record threaded through the handlers.
-/

namespace Heimdall

/-! ## AI analysis: bottleneck risk scoring (`services/ai-analysis.js`)

`CrowdAnalyzer.calculateBottleneckRisk(current, historical)` accumulates a
score from the current conditions and derives a risk level from it.
-/

namespace AI

/-- The fields of the `predictionData` object that
`calculateBottleneckRisk` actually reads: `currentDensity`,
`timeOfDay` (from `new Date().getHours()`), and `eventType`. -/
structure PredictionInput where
  currentDensity : Int
  timeOfDay : Int
  eventType : String
  deriving Repr, DecidableEq

/-- The `{ level, score, actions, zones }` object returned by
`calculateBottleneckRisk`. -/
structure BottleneckRisk where
  level : String
  score : Nat
  actions : List String
  zones : List String
  deriving Repr, DecidableEq

/-- Embedding of `CrowdAnalyzer.calculateBottleneckRisk`: sequential score
accumulation (`score += 40` for density > 30, else `+= 20` for density > 20;
`+= 15` for lunch hours 12..14; `+= 25` for concert/sports events) followed
by thresholding (`high` at ≥ 60, `medium` at ≥ 30, else `low`), with the
action and zone lists built alongside. -/
def calculateBottleneckRisk (current : PredictionInput) : BottleneckRisk :=
  let score : Nat := 0
  let actions : List String := []
  let zones : List String := []
  -- High density risk
  let (score, actions, zones) :=
    if current.currentDensity > 30 then
      (score + 40, actions ++ ["Deploy crowd control personnel"],
       zones ++ ["high-density-areas"])
    else if current.currentDensity > 20 then
      (score + 20, actions, zones)
    else
      (score, actions, zones)
  -- Time-based risk (lunch hours)
  let (score, actions) :=
    if current.timeOfDay ≥ 12 ∧ current.timeOfDay ≤ 14 then
      (score + 15, actions ++ ["Open additional service points"])
    else
      (score, actions)
  -- Event-specific risk
  let (score, actions, zones) :=
    if current.eventType = "concert" ∨ current.eventType = "sports" then
      (score + 25, actions ++ ["Prepare emergency exits"],
       zones ++ ["main-entrance", "stage-area"])
    else
      (score, actions, zones)
  let level :=
    if score ≥ 60 then "high"
    else if score ≥ 30 then "medium"
    else "low"
  { level := level, score := score, actions := actions, zones := zones }

end AI

end Heimdall

namespace Heimdall

/-- C9: `calculateBottleneckRisk` is the weighted sum
(40 / 20 / 0 for density) + (15 for hours 12–14) + (25 for concert/sports),
and the risk level is `high` iff score ≥ 60, `medium` iff 30 ≤ score < 60,
and `low` otherwise. -/
theorem C9_bottleneck_risk_weighted_sum (current : AI.PredictionInput) :
    (AI.calculateBottleneckRisk current).score =
      (if current.currentDensity > 30 then 40
       else if current.currentDensity > 20 then 20 else 0)
      + (if 12 ≤ current.timeOfDay ∧ current.timeOfDay ≤ 14 then 15 else 0)
      + (if current.eventType = "concert" ∨ current.eventType = "sports"
         then 25 else 0)
    ∧ ((AI.calculateBottleneckRisk current).level = "high"
        ↔ 60 ≤ (AI.calculateBottleneckRisk current).score)
    ∧ ((AI.calculateBottleneckRisk current).level = "medium"
        ↔ 30 ≤ (AI.calculateBottleneckRisk current).score
          ∧ (AI.calculateBottleneckRisk current).score < 60)
    ∧ ((AI.calculateBottleneckRisk current).level = "low"
        ↔ (AI.calculateBottleneckRisk current).score < 30) := by
  unfold AI.calculateBottleneckRisk
  split_ifs <;> simp_all

/-- Witness for C9 at a concrete input: density 35 at 13:00 during a
concert scores 40 + 15 + 25 = 80 and is rated `high`. -/
theorem C9_bottleneck_risk_weighted_sum_witness :
    (AI.calculateBottleneckRisk
      { currentDensity := 35, timeOfDay := 13,
        eventType := "concert" }).score = 80
    ∧ (AI.calculateBottleneckRisk
        { currentDensity := 35, timeOfDay := 13,
          eventType := "concert" }).level = "high" := by
  have h := C9_bottleneck_risk_weighted_sum
    { currentDensity := 35, timeOfDay := 13, eventType := "concert" }
  have hscore : (AI.calculateBottleneckRisk
      { currentDensity := 35, timeOfDay := 13,
        eventType := "concert" }).score = 80 := by
    rw [h.1]
    decide
  exact ⟨hscore, h.2.1.mpr (by rw [hscore]; omega)⟩

end Heimdall

namespace Heimdall

/-! ## Emergency dispatch (`services/emergency-dispatch.js`)

`EmergencyDispatchSystem.dispatchEmergency(incident)` validates the incident
with `validateIncident` and only then stores a record in the Firebase
`incidents` store and assigns responders. -/

namespace Dispatch

/-- The own keys of the `EMERGENCY_TYPES` object literal. -/
def EMERGENCY_TYPES_keys : List String :=
  ["MEDICAL", "FIRE", "SECURITY_THREAT", "CROWD_CONTROL", "LOST_PERSON",
   "TECHNICAL"]

/-- The property names `EMERGENCY_TYPES` inherits from `Object.prototype`:
a plain object literal's bracket lookup consults the prototype chain, and
each of these names yields a function (or, for `__proto__`, an object) —
all truthy values. -/
def OBJECT_PROTOTYPE_keys : List String :=
  ["constructor", "hasOwnProperty", "isPrototypeOf",
   "propertyIsEnumerable", "toLocaleString", "toString", "valueOf",
   "__defineGetter__", "__defineSetter__", "__lookupGetter__",
   "__lookupSetter__", "__proto__"]

/-- Truthiness of the JS lookup `EMERGENCY_TYPES[t]`: truthy exactly when
`t` is one of the six own keys or an inherited `Object.prototype`
property name. -/
def emergencyTypeTruthy (t : String) : Bool :=
  EMERGENCY_TYPES_keys.contains t || OBJECT_PROTOTYPE_keys.contains t

/-- An incident location as used by `validateIncident`: `lat`/`lng`
coordinates (JS numbers used for truthiness tests; `0` is falsy) and an
optional description. -/
structure IncidentLocation where
  lat : Int
  lng : Int
  description : Option String := none
  deriving Repr, DecidableEq

/-- The incident argument of `dispatchEmergency`. `none` fields model
absent JS properties; an absent or empty-string `type` is falsy. -/
structure Incident where
  type : Option String := none
  location : Option IncidentLocation := none
  description : Option String := none
  reportedBy : Option String := none
  deriving Repr, DecidableEq

/-- Embedding of `EmergencyDispatchSystem.validateIncident`:
`incident && incident.type && EMERGENCY_TYPES[incident.type] &&
incident.location && incident.location.lat && incident.location.lng`,
with JS truthiness (`''` and `0` are falsy) and with the bracket lookup
`EMERGENCY_TYPES[incident.type]` hitting the prototype chain, so inherited
names such as `'toString'` also pass. -/
def validateIncident (incident : Incident) : Bool :=
  (match incident.type with
   | none => false
   | some t => t ≠ "" && emergencyTypeTruthy t)
  && (match incident.location with
      | none => false
      | some loc => loc.lat ≠ 0 && loc.lng ≠ 0)

/-- A stored incident record as built by `dispatchEmergency` before the
Firebase `storeIncident` call. -/
structure IncidentRecord where
  id : String
  type : String
  priority : Nat
  timestamp : Nat
  location : IncidentLocation
  description : Option String
  reportedBy : String
  status : String
  deriving Repr, DecidableEq

/-- A responder, as read from the Firebase `responders` store (or the mock
list). Only the fields `dispatchEmergency` uses are modelled. -/
structure Responder where
  id : String
  name : String
  deriving Repr, DecidableEq

/-- The environment of a `dispatchEmergency` call: what
`findNearestResponders` and `calculateOptimalRoutes` would return. These
calls go to Firebase / the Google Maps API, so they are inputs of the
embedding. -/
structure DispatchEnv where
  availableResponders : List Responder
  routeDurations : List String
  deriving Repr

/-- The Firebase-backed incident store: `incidents/<id>` records plus the
`escalations` list that `escalateIncident` pushes to. -/
structure DispatchState where
  incidents : List (String × IncidentRecord)
  escalations : List String
  deriving Repr, DecidableEq

/-- Embedding of `priority: EMERGENCY_TYPES[incident.type]?.priority || 3`. -/
def emergencyPriority (t : String) : Nat :=
  if t = "MEDICAL" then 1
  else if t = "FIRE" then 1
  else if t = "SECURITY_THREAT" then 1
  else if t = "CROWD_CONTROL" then 2
  else if t = "LOST_PERSON" then 3
  else if t = "TECHNICAL" then 3
  else 3

/-- An assignment object built for each of the (at most 2) dispatched
responders. -/
structure Assignment where
  responderId : String
  responderName : String
  estimatedArrival : String
  deriving Repr, DecidableEq

/-- The value `dispatchEmergency` resolves with on the non-throwing paths. -/
structure DispatchSuccess where
  success : Bool
  incidentId : String
  assignments : List Assignment
  deriving Repr, DecidableEq

/-- Embedding of `EmergencyDispatchSystem.dispatchEmergency`. The result is
`.error msg` when the JS code throws, paired with the incident store after
the call. Validation happens before any store mutation; on validation
failure the function throws `'Invalid incident data provided'` untouched
state. On the valid path the record is stored, responders are assigned
(at most two) or, with none available, the incident is escalated. -/
def dispatchEmergency (env : DispatchEnv) (now : Nat) (incidentId : String)
    (st : DispatchState) (incident : Incident) :
    Except String DispatchSuccess × DispatchState :=
  if validateIncident incident then
    -- validateIncident guarantees type and location are present
    let t := match incident.type with
             | some t => t
             | none => ""
    let loc := match incident.location with
               | some loc => loc
               | none => { lat := 0, lng := 0 }
    let record : IncidentRecord :=
      { id := incidentId
        type := t
        priority := emergencyPriority t
        timestamp := now
        location := loc
        description := incident.description
        reportedBy := incident.reportedBy.getD "AI_SYSTEM"
        status := "DISPATCHING" }
    -- storeIncident
    let st := { st with incidents := st.incidents ++ [(incidentId, record)] }
    if env.availableResponders.isEmpty then
      -- escalateIncident, then resolve with success: false
      let st := { st with escalations := st.escalations ++ [incidentId] }
      (.ok { success := false, incidentId := incidentId, assignments := [] },
       st)
    else
      let n := min env.availableResponders.length 2
      let assignments :=
        (List.range n).map fun i =>
          { responderId := (env.availableResponders.get? i |>.map
              Responder.id).getD ""
            responderName := (env.availableResponders.get? i |>.map
              Responder.name).getD ""
            estimatedArrival := (env.routeDurations.get? i).getD "unknown" }
      let record := { record with status := "RESPONDING" }
      let st := { st with
        incidents := st.incidents.map fun p =>
          if p.1 = incidentId then (p.1, record) else p }
      (.ok { success := true, incidentId := incidentId,
             assignments := assignments }, st)
  else
    (.error "Invalid incident data provided", st)

end Dispatch

end Heimdall

namespace Heimdall

/-- Counterexample to C10 as stated: `"toString"` is not one of the six
`EMERGENCY_TYPES` keys, yet — because the JS bracket lookup
`EMERGENCY_TYPES['toString']` hits the inherited (truthy)
`Object.prototype.toString` — an incident of type `"toString"` with a
legitimate location passes `validateIncident`, so `dispatchEmergency`
does not throw `'Invalid incident data provided'`: it stores the incident
record (with the `|| 3` priority fallback) and, with no responders
available, escalates it. -/
theorem C10_dispatch_validates_before_store_counterexample :
    "toString" ∉ Dispatch.EMERGENCY_TYPES_keys
    ∧ Dispatch.dispatchEmergency ⟨[], []⟩ 1700000000000 "INC-1" ⟨[], []⟩
        { type := some "toString",
          location := some { lat := 12, lng := 77 } }
      = (.ok { success := false, incidentId := "INC-1",
               assignments := [] },
         { incidents := [("INC-1",
             { id := "INC-1", type := "toString", priority := 3,
               timestamp := 1700000000000,
               location := { lat := 12, lng := 77 },
               description := none, reportedBy := "AI_SYSTEM",
               status := "DISPATCHING" })],
           escalations := ["INC-1"] }) :=
  ⟨by decide, rfl⟩

/-- C10 (amended): `dispatchEmergency` validates before any side effect on
the incident store: whenever the incident's type is neither one of the six
`EMERGENCY_TYPES` keys nor the name of an inherited `Object.prototype`
property (the JS lookup consults the prototype chain, so strings like
`'toString'` pass the truthiness test), or its location is missing, or its
`location.lat` or `location.lng` is falsy (in particular exactly `0`), the
call throws `'Invalid incident data provided'` and the incident store is
unchanged. -/
theorem C10_dispatch_validates_before_store
    (env : Dispatch.DispatchEnv) (now : Nat) (incidentId : String)
    (st : Dispatch.DispatchState) (incident : Dispatch.Incident)
    (h : (∀ t, incident.type = some t →
            t ∉ Dispatch.EMERGENCY_TYPES_keys
            ∧ t ∉ Dispatch.OBJECT_PROTOTYPE_keys)
         ∨ incident.location = none
         ∨ (∃ loc, incident.location = some loc ∧
              (loc.lat = 0 ∨ loc.lng = 0))) :
    Dispatch.dispatchEmergency env now incidentId st incident =
      (.error "Invalid incident data provided", st) := by
  have hval : Dispatch.validateIncident incident = false := by
    unfold Dispatch.validateIncident Dispatch.emergencyTypeTruthy
    rcases h with h | h | ⟨loc, hloc, h0⟩
    · rcases ht : incident.type with _ | t
      · rfl
      · have h1 : t ∉ Dispatch.EMERGENCY_TYPES_keys := (h t ht).1
        have h2 : t ∉ Dispatch.OBJECT_PROTOTYPE_keys := (h t ht).2
        simp [h1, h2]
    · simp [h]
    · rcases h0 with h0 | h0 <;> simp [hloc, h0]
  unfold Dispatch.dispatchEmergency
  simp [hval]

/-- Witness for C10 at a concrete invalid incident: a `SECURITY_THREAT`
exactly on the equator (`lat = 0`) is rejected and the store `⟨[], []⟩` is
left unchanged. -/
theorem C10_dispatch_validates_before_store_witness :
    Dispatch.dispatchEmergency ⟨[], []⟩ 1700000000000 "INC-1" ⟨[], []⟩
      { type := some "SECURITY_THREAT",
        location := some { lat := 0, lng := 77 } } =
      (.error "Invalid incident data provided", ⟨[], []⟩) :=
  C10_dispatch_validates_before_store _ _ _ _ _
    (Or.inr (Or.inr ⟨{ lat := 0, lng := 77 }, rfl, Or.inl rfl⟩))

end Heimdall

namespace Heimdall

/-! ## Video Intelligence polling (`video-intelligence-api.js`)

`pollOperationStatus(operationName, accessToken, maxWaitTime = 300000)`
loops `while (Date.now() - startTime < maxWaitTime)`, issuing a status GET
every `pollInterval = 5000` ms. Time is modelled logically: the k-th status
check happens at elapsed time `k * pollInterval` (the loop body's own
latency is not modelled), and the behaviour of the remote operation is an
input: what the k-th status request observes. -/

namespace VideoIntel

/-- What one status GET of the long-running operation can observe:
the request itself fails (axios throws), the operation is still running
(`done` false), done with a response, or done with an error. -/
inductive PollResponse where
  | requestFailed (msg : String)
  | running
  | doneOk (response : String)
  | doneError (msg : String)
  deriving Repr, DecidableEq

/-- How `pollOperationStatus` ends: resolving with the operation's
response, or throwing with a message. -/
inductive PollResult where
  | ok (response : String)
  | thrown (msg : String)
  deriving Repr, DecidableEq

/-- Embedding of `const pollInterval = 5000; // 5 seconds`. -/
def pollInterval : Nat := 5000

/-- The timeout error thrown after the while loop exits. -/
def timeoutMsg (operationName : String) (maxWaitTime : Nat) : String :=
  "Operation timeout: " ++ operationName ++ " did not complete within "
    ++ toString (maxWaitTime / 1000) ++ " seconds"

/-- One iteration of the polling loop from check index `k` on: the loop
continues while the elapsed time `k * pollInterval` is below `maxWaitTime`.
A failed status request or a completed-with-error operation throws
(`Failed to poll operation: ...`); a completed operation returns its
response; otherwise the loop sleeps `pollInterval` and polls again. -/
def pollFrom (operationName : String) (observe : Nat → PollResponse)
    (maxWaitTime : Nat) (k : Nat) : PollResult :=
  if k * pollInterval < maxWaitTime then
    match observe k with
    | .requestFailed msg => .thrown ("Failed to poll operation: " ++ msg)
    | .doneError msg =>
        .thrown ("Failed to poll operation: Operation failed: " ++ msg)
    | .doneOk response => .ok response
    | .running => pollFrom operationName observe maxWaitTime (k + 1)
  else
    .thrown (timeoutMsg operationName maxWaitTime)
termination_by maxWaitTime - k * pollInterval
decreasing_by
  simp only [pollInterval] at *
  omega

/-- Embedding of `pollOperationStatus` (default `maxWaitTime` 300000 ms):
start polling at elapsed time 0. -/
def pollOperationStatus (operationName : String)
    (observe : Nat → PollResponse) (maxWaitTime : Nat := 300000) :
    PollResult :=
  pollFrom operationName observe maxWaitTime 0

/-- Number of status checks `pollFrom` performs starting at index `k`. -/
def pollChecksFrom (observe : Nat → PollResponse) (maxWaitTime k : Nat) :
    Nat :=
  if k * pollInterval < maxWaitTime then
    match observe k with
    | .running => 1 + pollChecksFrom observe maxWaitTime (k + 1)
    | _ => 1
  else 0
termination_by maxWaitTime - k * pollInterval
decreasing_by
  simp only [pollInterval] at *
  omega

/-- Number of status checks a full `pollOperationStatus` call performs. -/
def pollChecks (observe : Nat → PollResponse) (maxWaitTime : Nat := 300000) :
    Nat :=
  pollChecksFrom observe maxWaitTime 0

end VideoIntel

end Heimdall

namespace Heimdall

/-- Helper for C7: `pollFrom` sees its first non-`running` observation at
or after index `k`, provided it lies before the deadline. -/
theorem pollFrom_first_decisive (operationName : String)
    (observe : Nat → VideoIntel.PollResponse) (maxWaitTime n k : Nat)
    (hk : k ≤ n) (hlt : n * VideoIntel.pollInterval < maxWaitTime)
    (hrun : ∀ j, k ≤ j → j < n → observe j = .running) :
    VideoIntel.pollFrom operationName observe maxWaitTime k =
      VideoIntel.pollFrom operationName observe maxWaitTime n := by
  by_cases hkn : k = n
  · subst hkn; rfl
  · have hklt : k * VideoIntel.pollInterval < maxWaitTime := by
      have hmul : k * VideoIntel.pollInterval ≤ n * VideoIntel.pollInterval :=
        Nat.mul_le_mul_right _ hk
      omega
    rw [VideoIntel.pollFrom.eq_def]
    simp only [if_pos hklt, hrun k le_rfl (by omega)]
    exact pollFrom_first_decisive operationName observe maxWaitTime n (k + 1)
      (by omega) hlt (fun j hj hj2 => hrun j (by omega) hj2)
termination_by n - k

/-- Helper for C7: if every check before the deadline observes `running`,
`pollFrom` times out. -/
theorem pollFrom_timeout (operationName : String)
    (observe : Nat → VideoIntel.PollResponse) (maxWaitTime k : Nat)
    (hrun : ∀ j, k ≤ j → j * VideoIntel.pollInterval < maxWaitTime →
      observe j = .running) :
    VideoIntel.pollFrom operationName observe maxWaitTime k =
      .thrown (VideoIntel.timeoutMsg operationName maxWaitTime) := by
  rw [VideoIntel.pollFrom.eq_def]
  split
  · next hlt =>
    rw [hrun k le_rfl hlt]
    exact pollFrom_timeout operationName observe maxWaitTime (k + 1)
      (fun j hj hjlt => hrun j (by omega) hjlt)
  · rfl
termination_by maxWaitTime - k * VideoIntel.pollInterval
decreasing_by
  simp only [VideoIntel.pollInterval] at *
  omega

/-- Helper for C7: when at least one status check happens, the last one
still lies strictly before the `maxWaitTime` deadline. -/
theorem pollChecksFrom_last_lt (observe : Nat → VideoIntel.PollResponse)
    (maxWaitTime k : Nat)
    (hpos : 0 < VideoIntel.pollChecksFrom observe maxWaitTime k) :
    (k + VideoIntel.pollChecksFrom observe maxWaitTime k - 1) *
        VideoIntel.pollInterval < maxWaitTime := by
  have hlt : k * VideoIntel.pollInterval < maxWaitTime := by
    by_contra hge
    rw [VideoIntel.pollChecksFrom.eq_def, if_neg hge] at hpos
    omega
  cases hobs : observe k with
  | running =>
    have heq : VideoIntel.pollChecksFrom observe maxWaitTime k =
        1 + VideoIntel.pollChecksFrom observe maxWaitTime (k + 1) := by
      rw [VideoIntel.pollChecksFrom.eq_def, if_pos hlt, hobs]
    rcases Nat.eq_zero_or_pos
        (VideoIntel.pollChecksFrom observe maxWaitTime (k + 1)) with h0 | hp
    · rw [heq, h0]
      simpa using hlt
    · have ih := pollChecksFrom_last_lt observe maxWaitTime (k + 1) hp
      rw [heq]
      have harith : k + (1 + VideoIntel.pollChecksFrom observe maxWaitTime (k + 1)) - 1
          = k + 1 + VideoIntel.pollChecksFrom observe maxWaitTime (k + 1) - 1 := by
        omega
      rw [harith]
      exact ih
  | requestFailed msg =>
    have heq : VideoIntel.pollChecksFrom observe maxWaitTime k = 1 := by
      rw [VideoIntel.pollChecksFrom.eq_def, if_pos hlt, hobs]
    rw [heq]
    simpa using hlt
  | doneOk response =>
    have heq : VideoIntel.pollChecksFrom observe maxWaitTime k = 1 := by
      rw [VideoIntel.pollChecksFrom.eq_def, if_pos hlt, hobs]
    rw [heq]
    simpa using hlt
  | doneError msg =>
    have heq : VideoIntel.pollChecksFrom observe maxWaitTime k = 1 := by
      rw [VideoIntel.pollChecksFrom.eq_def, if_pos hlt, hobs]
    rw [heq]
    simpa using hlt
termination_by maxWaitTime - k * VideoIntel.pollInterval
decreasing_by
  simp only [VideoIntel.pollInterval] at *
  omega

/-- C7: the polling loop `pollOperationStatus` always ends in one of three
ways. Writing `observe j` for what the `j`-th status request (issued at
elapsed time `5000·j` ms) sees: if the first non-running observation before
the `maxWaitTime` deadline is a completed operation without error, the call
returns its response; if it is a completed operation with an error or a
failed status request, the call throws; and if every check before the
deadline sees a still-running operation, the call throws the timeout error.
Moreover every status check it performs happens strictly before the
deadline, so at most `⌈maxWaitTime/5000⌉` checks are made. -/
theorem C7_pollOperationStatus_terminates (operationName : String)
    (observe : Nat → VideoIntel.PollResponse) (maxWaitTime : Nat) :
    VideoIntel.pollInterval = 5000
    ∧ (∀ n resp, n * VideoIntel.pollInterval < maxWaitTime →
        observe n = .doneOk resp →
        (∀ j, j < n → observe j = .running) →
        VideoIntel.pollOperationStatus operationName observe maxWaitTime =
          .ok resp)
    ∧ (∀ n msg, n * VideoIntel.pollInterval < maxWaitTime →
        observe n = .doneError msg →
        (∀ j, j < n → observe j = .running) →
        VideoIntel.pollOperationStatus operationName observe maxWaitTime =
          .thrown ("Failed to poll operation: Operation failed: " ++ msg))
    ∧ (∀ n msg, n * VideoIntel.pollInterval < maxWaitTime →
        observe n = .requestFailed msg →
        (∀ j, j < n → observe j = .running) →
        VideoIntel.pollOperationStatus operationName observe maxWaitTime =
          .thrown ("Failed to poll operation: " ++ msg))
    ∧ ((∀ j, j * VideoIntel.pollInterval < maxWaitTime →
          observe j = .running) →
        VideoIntel.pollOperationStatus operationName observe maxWaitTime =
          .thrown (VideoIntel.timeoutMsg operationName maxWaitTime))
    ∧ (∀ i, i < VideoIntel.pollChecks observe maxWaitTime →
        i * VideoIntel.pollInterval < maxWaitTime)
    ∧ VideoIntel.pollChecks observe maxWaitTime ≤
        (maxWaitTime + 4999) / 5000 := by
  have step : ∀ n, n * VideoIntel.pollInterval < maxWaitTime →
      (∀ j, j < n → observe j = .running) →
      VideoIntel.pollOperationStatus operationName observe maxWaitTime =
        (if n * VideoIntel.pollInterval < maxWaitTime then
          match observe n with
          | .requestFailed msg => .thrown ("Failed to poll operation: " ++ msg)
          | .doneError msg =>
              .thrown ("Failed to poll operation: Operation failed: " ++ msg)
          | .doneOk response => .ok response
          | .running =>
              VideoIntel.pollFrom operationName observe maxWaitTime (n + 1)
        else .thrown (VideoIntel.timeoutMsg operationName maxWaitTime)) := by
    intro n hn hrun
    have := pollFrom_first_decisive operationName observe maxWaitTime n 0
      (Nat.zero_le n) hn (fun j _ hj => hrun j hj)
    rw [VideoIntel.pollOperationStatus, this, VideoIntel.pollFrom.eq_def]
  have hc : VideoIntel.pollChecks observe maxWaitTime =
      VideoIntel.pollChecksFrom observe maxWaitTime 0 := rfl
  have hchecks : ∀ i, i < VideoIntel.pollChecks observe maxWaitTime →
      i * VideoIntel.pollInterval < maxWaitTime := by
    intro i hi
    have hpos : 0 < VideoIntel.pollChecks observe maxWaitTime := by omega
    have hlast := pollChecksFrom_last_lt observe maxWaitTime 0 hpos
    rw [← hc] at hlast
    have hmul : i * VideoIntel.pollInterval ≤
        (0 + VideoIntel.pollChecks observe maxWaitTime - 1) *
          VideoIntel.pollInterval :=
      Nat.mul_le_mul_right _ (by omega)
    omega
  refine ⟨rfl, ?_, ?_, ?_, ?_, hchecks, ?_⟩
  · intro n resp hn hobs hrun
    rw [step n hn hrun, if_pos hn, hobs]
  · intro n msg hn hobs hrun
    rw [step n hn hrun, if_pos hn, hobs]
  · intro n msg hn hobs hrun
    rw [step n hn hrun, if_pos hn, hobs]
  · intro hall
    exact pollFrom_timeout operationName observe maxWaitTime 0
      (fun j _ hj => hall j hj)
  · rcases Nat.eq_zero_or_pos (VideoIntel.pollChecks observe maxWaitTime)
        with h0 | hp
    · simp [h0]
    · have hlast := pollChecksFrom_last_lt observe maxWaitTime 0 hp
      rw [← hc] at hlast
      simp only [VideoIntel.pollInterval] at hlast
      omega

/-- Witness for C7 at a concrete observation stream: an operation that is
running at the first two checks and done at the third (elapsed 10 s, within
the default 300 s budget) makes `pollOperationStatus` return the response. -/
theorem C7_pollOperationStatus_terminates_witness :
    VideoIntel.pollOperationStatus "operations/op-1"
      (fun j => if j < 2 then .running else .doneOk "annotationResults")
      300000 = .ok "annotationResults" := by
  have h := (C7_pollOperationStatus_terminates "operations/op-1"
    (fun j => if j < 2 then .running else .doneOk "annotationResults")
    300000).2.1
  exact h 2 "annotationResults" (by decide) (by decide)
    (fun j hj => by simp [hj])

end Heimdall

namespace Heimdall

/-! ## Mobile client: chunk upload with retry (`App.tsx`, `uploadVideoChunk`)

The upload loop `while (retryCount < maxRetries)` performs a `fetch`; its
outcome for the `k`-th attempt (0-based) is an input of the embedding.
`response.ok` ends the loop successfully; a non-ok response with status
< 500 ends the loop without retrying; a status ≥ 500 is thrown and, like a
network/timeout/unreachable-backend error, increments `retryCount` and
sleeps `Math.pow(2, retryCount) * 1000` ms when another attempt remains. -/

namespace Mobile

/-- What one upload attempt (the `fetch` plus the preceding backend
reachability test) can produce: an ok response, a non-ok response with an
HTTP status, or a thrown error (timeout, network failure, backend not
reachable). -/
inductive AttemptOutcome where
  | success
  | httpError (status : Nat)
  | netError
  deriving Repr, DecidableEq

/-- How `uploadVideoChunk` ends, with the number of attempts made:
the chunk uploaded; a non-5xx HTTP error ended the loop without retrying;
or the `maxRetries` attempts were exhausted and the failure alert shown. -/
inductive UploadOutcome where
  | uploaded (attemptsUsed : Nat)
  | clientError (status : Nat) (attemptsUsed : Nat)
  | failedAfterMax (attemptsUsed : Nat)
  deriving Repr, DecidableEq

/-- Embedding of `const maxRetries = 3`. -/
def maxRetries : Nat := 3

/-- Embedding of `const delay = Math.pow(2, retryCount) * 1000` — the backoff slept
after the `retryCount`-th failure, in ms (`2^retryCount` seconds). -/
def retryDelayMs (retryCount : Nat) : Nat := 2 ^ retryCount * 1000

/-- An attempt outcome that the loop retries after: a thrown error or a
server (≥ 500) HTTP error. -/
def retriable : AttemptOutcome → Bool
  | .success => false
  | .httpError status => 500 ≤ status
  | .netError => true

/-- The `while (retryCount < maxRetries)` loop of `uploadVideoChunk`,
also recording the list of backoff delays it sleeps. A retriable failure
increments `retryCount` and, when another attempt remains
(`retryCount < maxRetries` after the increment), sleeps
`retryDelayMs retryCount`. -/
def uploadLoop (attempt : Nat → AttemptOutcome) (retryCount : Nat)
    (delays : List Nat) : UploadOutcome × List Nat :=
  if retryCount < maxRetries then
    match attempt retryCount with
    | .success => (.uploaded (retryCount + 1), delays)
    | .httpError status =>
        if 500 ≤ status then
          uploadLoop attempt (retryCount + 1)
            (if retryCount + 1 < maxRetries then
              delays ++ [retryDelayMs (retryCount + 1)] else delays)
        else
          (.clientError status (retryCount + 1), delays)
    | .netError =>
        uploadLoop attempt (retryCount + 1)
          (if retryCount + 1 < maxRetries then
            delays ++ [retryDelayMs (retryCount + 1)] else delays)
  else
    (.failedAfterMax retryCount, delays)
termination_by maxRetries - retryCount

/-- Embedding of `uploadVideoChunk`'s upload loop, started with
`retryCount = 0` and no delays slept yet. -/
def uploadVideoChunk (attempt : Nat → AttemptOutcome) :
    UploadOutcome × List Nat :=
  uploadLoop attempt 0 []

/-- The number of attempts an outcome reports. -/
def attemptsOf : UploadOutcome → Nat
  | .uploaded n => n
  | .clientError _ n => n
  | .failedAfterMax n => n

end Mobile

/-- Helper for C1: a retriable failure advances the loop. -/
theorem uploadLoop_retry_step (attempt : Nat → Mobile.AttemptOutcome)
    (rc : Nat) (delays : List Nat) (h : rc < Mobile.maxRetries)
    (hr : Mobile.retriable (attempt rc) = true) :
    Mobile.uploadLoop attempt rc delays =
      Mobile.uploadLoop attempt (rc + 1)
        (if rc + 1 < Mobile.maxRetries then
          delays ++ [Mobile.retryDelayMs (rc + 1)] else delays) := by
  rw [Mobile.uploadLoop.eq_def, if_pos h]
  cases hobs : attempt rc with
  | success => rw [hobs] at hr; simp [Mobile.retriable] at hr
  | httpError status =>
    rw [hobs] at hr
    simp only [Mobile.retriable] at hr
    simp only [if_pos (show (500 : Nat) ≤ status by simpa using hr)]
  | netError => rfl

/-- Helper for C1: at most `maxRetries` attempts are ever reported. -/
theorem uploadLoop_attempts_le (attempt : Nat → Mobile.AttemptOutcome)
    (rc : Nat) (delays : List Nat) (h : rc ≤ Mobile.maxRetries) :
    Mobile.attemptsOf (Mobile.uploadLoop attempt rc delays).1 ≤
      Mobile.maxRetries := by
  rw [Mobile.uploadLoop.eq_def]
  split
  · next hlt =>
    split
    · simpa [Mobile.attemptsOf] using hlt
    · split
      · exact uploadLoop_attempts_le attempt (rc + 1) _ (by omega)
      · simpa [Mobile.attemptsOf] using hlt
    · exact uploadLoop_attempts_le attempt (rc + 1) _ (by omega)
  · simpa [Mobile.attemptsOf] using h
termination_by Mobile.maxRetries - rc

/-- C1: the upload loop of `uploadVideoChunk` makes at most 3 attempts;
if the first `k` attempts fail retriably (network error, timeout, or HTTP
status ≥ 500) it has slept `2^1, …, 2^k` seconds between consecutive
attempts; a success at attempt `k` ends the loop with `k+1` attempts; a
non-5xx HTTP error response ends the loop immediately without further
retries or sleeps; and when all 3 attempts fail retriably the upload is
reported failed after exactly 3 attempts, having slept 2 s and 4 s between
them. -/
theorem C1_uploadVideoChunk_retry_with_backoff
    (attempt : Nat → Mobile.AttemptOutcome) :
    Mobile.attemptsOf (Mobile.uploadVideoChunk attempt).1 ≤ 3
    ∧ ((∀ k, k < 3 → Mobile.retriable (attempt k) = true) →
        Mobile.uploadVideoChunk attempt =
          (.failedAfterMax 3, [2000, 4000]))
    ∧ (∀ k, k < 3 → (∀ j, j < k → Mobile.retriable (attempt j) = true) →
        attempt k = .success →
        Mobile.uploadVideoChunk attempt =
          (.uploaded (k + 1),
           (List.range k).map fun i => Mobile.retryDelayMs (i + 1)))
    ∧ (∀ k status, k < 3 →
        (∀ j, j < k → Mobile.retriable (attempt j) = true) →
        attempt k = .httpError status → status < 500 →
        Mobile.uploadVideoChunk attempt =
          (.clientError status (k + 1),
           (List.range k).map fun i => Mobile.retryDelayMs (i + 1))) := by
  have hstep0 : ∀ k, k < 3 →
      (∀ j, j < k → Mobile.retriable (attempt j) = true) →
      Mobile.uploadVideoChunk attempt =
        Mobile.uploadLoop attempt k
          ((List.range k).map fun i => Mobile.retryDelayMs (i + 1)) := by
    intro k hk hr
    interval_cases k
    · rfl
    · rw [Mobile.uploadVideoChunk,
        uploadLoop_retry_step attempt 0 [] (by decide) (hr 0 (by decide))]
      rfl
    · rw [Mobile.uploadVideoChunk,
        uploadLoop_retry_step attempt 0 [] (by decide) (hr 0 (by decide)),
        uploadLoop_retry_step attempt 1 _ (by decide) (hr 1 (by decide))]
      rfl
  refine ⟨uploadLoop_attempts_le attempt 0 [] (by decide), ?_, ?_, ?_⟩
  · intro hall
    rw [Mobile.uploadVideoChunk,
      uploadLoop_retry_step attempt 0 [] (by decide) (hall 0 (by decide)),
      uploadLoop_retry_step attempt 1 _ (by decide) (hall 1 (by decide)),
      uploadLoop_retry_step attempt 2 _ (by decide) (hall 2 (by decide)),
      Mobile.uploadLoop.eq_def]
    norm_num [Mobile.maxRetries, Mobile.retryDelayMs]
  · intro k hk hr hs
    rw [hstep0 k hk hr, Mobile.uploadLoop.eq_def,
      if_pos (show k < Mobile.maxRetries by
        simp only [Mobile.maxRetries]; omega), hs]
  · intro k status hk hr hs hlt
    rw [hstep0 k hk hr, Mobile.uploadLoop.eq_def,
      if_pos (show k < Mobile.maxRetries by
        simp only [Mobile.maxRetries]; omega), hs]
    simp only [if_neg (by omega : ¬ 500 ≤ status)]

/-- Witness for C1: a run whose first attempt times out and whose second
gets an ok response uploads after 2 attempts, having slept exactly the 2 s
backoff in between. -/
theorem C1_uploadVideoChunk_retry_with_backoff_witness :
    Mobile.uploadVideoChunk
        (fun k => if k = 0 then .netError else .success) =
      (.uploaded 2, [2000]) := by
  have h := (C1_uploadVideoChunk_retry_with_backoff
    (fun k => if k = 0 then .netError else .success)).2.2.1
  exact h 1 (by decide) (fun j hj => by interval_cases j <;> rfl) rfl

end Heimdall

namespace Heimdall

/-! ## Mobile client: chunked recording (`App.tsx`,
`startChunkedRecording`) and session identifiers.

`startChunkedRecording` starts a camera recording (whose
`onRecordingFinished` callback hands the finished segment to
`uploadVideoChunk`) and arms a `setTimeout(..., CHUNK_DURATION)`. The
embedding models the client as a state record; segment identities are
natural numbers. -/

namespace Mobile

/-- Embedding of `const CHUNK_DURATION = 5 * 60 * 1000; // 5 minutes`. -/
def CHUNK_DURATION : Nat := 5 * 60 * 1000

/-- The mobile client state relevant to chunked recording: the
`isStreaming` / `isRecording` flags, the `chunkCount` counter, whether
`camera.current` is non-null, and the segment currently being recorded
(if any). -/
structure ClientState where
  isStreaming : Bool
  isRecording : Bool
  chunkCount : Nat
  cameraAvailable : Bool
  recording : Option Nat
  deriving Repr, DecidableEq

/-- Observable actions of the timer callback: handing a finished segment
to `uploadVideoChunk`, and arming a new `CHUNK_DURATION` timer for the
restarted recording. -/
inductive ClientAction where
  | uploadChunk (segment : Nat)
  | armChunkTimer (durationMs : Nat)
  deriving Repr, DecidableEq

/-- Embedding of `startChunkedRecording`: sets `isRecording`, starts
recording a fresh segment, and arms the `CHUNK_DURATION` timer. -/
def startChunkedRecording (s : ClientState) (newSegment : Nat) :
    ClientState × List ClientAction :=
  if s.cameraAvailable then
    ({ s with isRecording := true, recording := some newSegment },
     [.armChunkTimer CHUNK_DURATION])
  else
    (s, [])

/-- Embedding of the `setTimeout` callback of `startChunkedRecording`:
`if (isRecording && camera.current)` stop the current recording — which
fires `onRecordingFinished` and hands the finished segment to
`uploadVideoChunk` — and `if (isStreaming)` increment `chunkCount` and
call `startChunkedRecording` again. -/
def onChunkTimer (s : ClientState) (newSegment : Nat) :
    ClientState × List ClientAction :=
  if s.isRecording ∧ s.cameraAvailable then
    -- camera.current.stopRecording(): onRecordingFinished(video) →
    -- uploadVideoChunk(video)
    let uploads : List ClientAction :=
      match s.recording with
      | some segment => [.uploadChunk segment]
      | none => []
    let s := { s with recording := none }
    if s.isStreaming then
      let s := { s with chunkCount := s.chunkCount + 1 }
      let (s, actions) := startChunkedRecording s newSegment
      (s, uploads ++ actions)
    else
      (s, uploads)
  else
    (s, [])

end Mobile

/-- C2: chunks are fixed 5-minute segments produced by restarting the
recording on a timer. `CHUNK_DURATION` is 5 minutes, and when the timer
fires while recording and streaming are both still active (with the
camera available and segment `seg` being recorded), the finished segment
is handed to `uploadVideoChunk`, `chunkCount` is incremented by exactly
one, and a new recording of the next segment starts immediately with a
fresh `CHUNK_DURATION` timer — so the finished chunk uploads while the
next segment is already recording. -/
theorem C2_chunk_timer_rotates_recording (s : Mobile.ClientState)
    (seg newSegment : Nat) (hrec : s.isRecording = true)
    (hstream : s.isStreaming = true) (hcam : s.cameraAvailable = true)
    (hseg : s.recording = some seg) :
    Mobile.CHUNK_DURATION = 5 * 60 * 1000
    ∧ Mobile.onChunkTimer s newSegment =
      ({ s with chunkCount := s.chunkCount + 1,
                isRecording := true,
                recording := some newSegment },
       [.uploadChunk seg, .armChunkTimer Mobile.CHUNK_DURATION]) := by
  refine ⟨rfl, ?_⟩
  rw [Mobile.onChunkTimer]
  simp [hrec, hstream, hcam, hseg, Mobile.startChunkedRecording]

/-- Witness for C2 at a concrete client state: streaming and recording
segment 7 with 3 chunks counted, the timer uploads segment 7, bumps the
counter to 4 and starts recording segment 8. -/
theorem C2_chunk_timer_rotates_recording_witness :
    Mobile.CHUNK_DURATION = 5 * 60 * 1000
    ∧ Mobile.onChunkTimer
        { isStreaming := true, isRecording := true, chunkCount := 3,
          cameraAvailable := true, recording := some 7 } 8 =
      ({ isStreaming := true, isRecording := true, chunkCount := 4,
         cameraAvailable := true, recording := some 8 },
       [.uploadChunk 7, .armChunkTimer Mobile.CHUNK_DURATION]) :=
  C2_chunk_timer_rotates_recording
    { isStreaming := true, isRecording := true, chunkCount := 3,
      cameraAvailable := true, recording := some 7 } 7 8 rfl rfl rfl rfl

end Heimdall

namespace Heimdall

/-! ## Mobile client: session identifiers (`App.tsx`)

`initializeApp` creates `sessionId = deviceId + '-' + Date.now()`;
`stopStreaming` resets it the same way; `uploadVideoChunk` attaches the
current `sessionId` to every chunk. No event ever installs a
backend-provided identifier: the only writes to `sessionId` go through
`mkSessionId`. -/

namespace Mobile

/-- Embedding of `` `${id}-${Date.now()}` `` — the client-side session id format. -/
def mkSessionId (deviceId : String) (now : Nat) : String :=
  deviceId ++ "-" ++ toString now

/-- A chunk upload as recorded by the embedding: the session id it carried
and the index of the streaming run it belonged to. -/
structure ChunkUpload where
  sessionId : String
  run : Nat
  deriving Repr, DecidableEq

/-- The session-related client state: the device id, the current session
id, whether a streaming run is active, the index of the latest run, and
all chunk uploads performed so far. -/
structure SessionState where
  deviceId : String
  sessionId : String
  runActive : Bool
  runIndex : Nat
  uploads : List ChunkUpload
  deriving Repr, DecidableEq

/-- The session-relevant events of the client's life:
`initApp` (`initializeApp`, which also sets the session id),
`startRun` (`startStreaming` succeeding), `finishChunk`
(`onRecordingFinished` → `uploadVideoChunk`, which attaches the current
session id), and `stopRun` (`stopStreaming`, which resets the session id
to `deviceId-Date.now()`). -/
inductive SessionEvent where
  | initApp (now : Nat)
  | startRun
  | finishChunk
  | stopRun (now : Nat)
  deriving Repr, DecidableEq

/-- One step of the session state machine. -/
def sessionStep (s : SessionState) : SessionEvent → SessionState
  | .initApp now => { s with sessionId := mkSessionId s.deviceId now }
  | .startRun => { s with runActive := true, runIndex := s.runIndex + 1 }
  | .finishChunk =>
      if s.runActive then
        { s with uploads :=
            s.uploads ++ [{ sessionId := s.sessionId, run := s.runIndex }] }
      else s
  | .stopRun now =>
      { s with runActive := false,
               sessionId := mkSessionId s.deviceId now }

/-- Run the client from a state through a list of events. -/
def sessionRun (s : SessionState) : List SessionEvent → SessionState
  | [] => s
  | e :: es => sessionRun (sessionStep s e) es

/-- The state of the freshly initialized app: `initializeApp` ran at time
`t0` on device `deviceId` and no streaming has happened yet. -/
def initialSessionState (deviceId : String) (t0 : Nat) : SessionState :=
  { deviceId := deviceId
    sessionId := mkSessionId deviceId t0
    runActive := false
    runIndex := 0
    uploads := [] }

/-- Well-formedness: `initializeApp` only runs while no streaming run is active (at app
start, or from the retry/error screens, which only show when not
streaming). -/
def wellFormedFrom (s : SessionState) : List SessionEvent → Prop
  | [] => True
  | e :: es =>
      (∀ now, e = .initApp now → s.runActive = false) ∧
      wellFormedFrom (sessionStep s e) es

/-- The invariant from which C5 follows: the current session id is
client-generated, uploads never outrun the run counter, all uploads of the
active run carry the current session id, uploads of one run agree on their
session id, and every recorded upload carries a client-generated id. -/
def sessionInvariant (s : SessionState) : Prop :=
  (∃ t, s.sessionId = Mobile.mkSessionId s.deviceId t)
  ∧ (∀ u ∈ s.uploads, u.run ≤ s.runIndex)
  ∧ (s.runActive = true →
      ∀ u ∈ s.uploads, u.run = s.runIndex → u.sessionId = s.sessionId)
  ∧ (∀ u ∈ s.uploads, ∀ v ∈ s.uploads,
      u.run = v.run → u.sessionId = v.sessionId)
  ∧ (∀ u ∈ s.uploads, ∃ t, u.sessionId = Mobile.mkSessionId s.deviceId t)

end Mobile

/-- Helper for C5: a session step never changes the device id. -/
theorem sessionStep_deviceId (s : Mobile.SessionState)
    (e : Mobile.SessionEvent) :
    (Mobile.sessionStep s e).deviceId = s.deviceId := by
  cases e with
  | initApp now => rfl
  | startRun => rfl
  | finishChunk =>
    rw [Mobile.sessionStep]
    split <;> rfl
  | stopRun now => rfl

/-- Helper for C5: `sessionStep` preserves the invariant along well-formed
event lists, and never changes the device id. -/
theorem sessionRun_invariant (s : Mobile.SessionState)
    (events : List Mobile.SessionEvent)
    (hwf : Mobile.wellFormedFrom s events)
    (hinv : Mobile.sessionInvariant s) :
    Mobile.sessionInvariant (Mobile.sessionRun s events)
    ∧ (Mobile.sessionRun s events).deviceId = s.deviceId := by
  induction events generalizing s with
  | nil => exact ⟨hinv, rfl⟩
  | cons e es ih =>
    obtain ⟨hwf1, hwf2⟩ := hwf
    obtain ⟨⟨t0, hsid⟩, hle, hactive, hagree, hgen⟩ := hinv
    have hstep : Mobile.sessionInvariant (Mobile.sessionStep s e) := by
      cases e with
      | initApp now =>
        have hact : s.runActive = false := hwf1 now rfl
        refine ⟨⟨now, rfl⟩, hle, ?_, hagree, hgen⟩
        intro hcontra
        have hcontra' : s.runActive = true := hcontra
        rw [hact] at hcontra'
        cases hcontra'
      | startRun =>
        refine ⟨⟨t0, hsid⟩, ?_, ?_, hagree, hgen⟩
        · intro u hu
          have := hle u hu
          simp only [Mobile.sessionStep]
          omega
        · intro _ u hu hrun
          exfalso
          have := hle u hu
          simp only [Mobile.sessionStep] at hrun
          omega
      | finishChunk =>
        by_cases hact : s.runActive = true
        · have hstepeq : Mobile.sessionStep s .finishChunk =
              { s with uploads := s.uploads ++
                  [{ sessionId := s.sessionId, run := s.runIndex }] } := by
            rw [Mobile.sessionStep, if_pos hact]
          rw [hstepeq]
          refine ⟨⟨t0, hsid⟩, ?_, ?_, ?_, ?_⟩
          · intro u hu
            simp only [List.mem_append, List.mem_singleton] at hu
            rcases hu with hu | hu
            · exact hle u hu
            · subst hu; exact le_rfl
          · intro _ u hu hrun
            simp only [List.mem_append, List.mem_singleton] at hu
            rcases hu with hu | hu
            · exact hactive hact u hu hrun
            · subst hu; rfl
          · intro u hu v hv hr
            simp only [List.mem_append, List.mem_singleton] at hu hv
            rcases hu with hu | hu <;> rcases hv with hv | hv
            · exact hagree u hu v hv hr
            · subst hv
              simp only at hr
              exact hactive hact u hu hr
            · subst hu
              simp only at hr ⊢
              exact (hactive hact v hv hr.symm).symm
            · subst hu; subst hv; rfl
          · intro u hu
            simp only [List.mem_append, List.mem_singleton] at hu
            rcases hu with hu | hu
            · exact hgen u hu
            · subst hu; exact ⟨t0, hsid⟩
        · have hact' : s.runActive = false := by
            cases hb : s.runActive
            · rfl
            · exact absurd hb hact
          have hstepeq : Mobile.sessionStep s .finishChunk = s := by
            rw [Mobile.sessionStep, if_neg (by simp [hact'])]
          rw [hstepeq]
          exact ⟨⟨t0, hsid⟩, hle, hactive, hagree, hgen⟩
      | stopRun now =>
        refine ⟨⟨now, rfl⟩, hle, ?_, hagree, hgen⟩
        intro hcontra
        exact absurd hcontra (by simp [Mobile.sessionStep])
    have := ih (Mobile.sessionStep s e) hwf2 hstep
    exact ⟨this.1, this.2.trans (sessionStep_deviceId s e)⟩

/-- C5: starting from an initialized app, after any well-formed sequence
of streaming events every uploaded chunk carries a session id of the
client-generated form `deviceId-timestamp` (the backend never supplies
one — no event can install anything but `mkSessionId deviceId t`), and any
two chunks uploaded during the same streaming run carry the same session
id. -/
theorem C5_session_ids_client_generated (deviceId : String) (t0 : Nat)
    (events : List Mobile.SessionEvent)
    (hwf : Mobile.wellFormedFrom
      (Mobile.initialSessionState deviceId t0) events) :
    (∀ u ∈ (Mobile.sessionRun
        (Mobile.initialSessionState deviceId t0) events).uploads,
      ∃ t, u.sessionId = Mobile.mkSessionId deviceId t)
    ∧ (∀ u ∈ (Mobile.sessionRun
          (Mobile.initialSessionState deviceId t0) events).uploads,
       ∀ v ∈ (Mobile.sessionRun
          (Mobile.initialSessionState deviceId t0) events).uploads,
       u.run = v.run → u.sessionId = v.sessionId) := by
  have hinv0 : Mobile.sessionInvariant
      (Mobile.initialSessionState deviceId t0) := by
    refine ⟨⟨t0, rfl⟩, ?_, ?_, ?_, ?_⟩ <;>
      simp [Mobile.initialSessionState]
  have h := sessionRun_invariant _ events hwf hinv0
  obtain ⟨⟨_, _, _, hagree, hgen⟩, hdev⟩ := h
  refine ⟨?_, hagree⟩
  intro u hu
  have := hgen u hu
  rwa [hdev] at this

/-- Witness for C5 at a concrete trace: init at t=100, one run with two
chunks, stop, a second run with one chunk. All three uploads carry
client-generated ids, and the two run-1 uploads agree. -/
theorem C5_session_ids_client_generated_witness :
    (∀ u ∈ (Mobile.sessionRun (Mobile.initialSessionState "dev42" 100)
        [.startRun, .finishChunk, .finishChunk, .stopRun 900,
         .startRun, .finishChunk]).uploads,
      ∃ t, u.sessionId = Mobile.mkSessionId "dev42" t)
    ∧ (∀ u ∈ (Mobile.sessionRun (Mobile.initialSessionState "dev42" 100)
          [.startRun, .finishChunk, .finishChunk, .stopRun 900,
           .startRun, .finishChunk]).uploads,
       ∀ v ∈ (Mobile.sessionRun (Mobile.initialSessionState "dev42" 100)
          [.startRun, .finishChunk, .finishChunk, .stopRun 900,
           .startRun, .finishChunk]).uploads,
       u.run = v.run → u.sessionId = v.sessionId) :=
  C5_session_ids_client_generated "dev42" 100
    [.startRun, .finishChunk, .finishChunk, .stopRun 900,
     .startRun, .finishChunk]
    (by simp [Mobile.wellFormedFrom])

end Heimdall

namespace Heimdall

/-! ## Backend: chunk upload pipeline (`backend/server.js`)

`POST /upload-chunk` receives the multer temp files, updates the
`activeSessions` map, copies the video to permanent local storage
(`moveToUploads`), uploads it to GCS with a presigned URL
(`uploadToGCPImmediately`), records the upload in the session, deletes the
temp files and answers 200. The file system and the GCS bucket are an
explicit state; file-system operations are modelled as succeeding (the
claims speak about successfully handled requests). -/

namespace Backend

/-- JS `String.prototype.startsWith`, on the underlying character lists. -/
def jsStartsWith (s p : String) : Bool := p.data.isPrefixOf s.data

/-- JS `String.prototype.endsWith`, on the underlying character lists. -/
def jsEndsWith (s p : String) : Bool := p.data.isSuffixOf s.data

/-- Embedding of `const BUCKET_NAME = process.env.GCS_BUCKET_NAME || 'heimdall-cam'` —
the default bucket name. -/
def BUCKET_NAME : String := "heimdall-cam"

/-- The argument of one `file.getSignedUrl({action, expires})` call issued
to GCS. -/
structure SignedUrlRequest where
  action : String
  expires : Nat
  deriving Repr, DecidableEq

/-- Deterministic model of the signed URL string GCS answers a request
with. -/
def mkPresignedUrl (gcsPath : String) (expires : Nat) : String :=
  "https://storage.googleapis.com/" ++ BUCKET_NAME ++ "/" ++ gcsPath
    ++ "?expires=" ++ toString expires

/-- An entry of `session.uploads` as pushed by `POST /upload-chunk`. -/
structure UploadRecord where
  uploadId : String
  chunkIndex : Nat
  gcsUri : Option String
  presignedUrl : Option String
  expiresAt : Option Nat
  localPath : String
  uploadStatus : String
  gcsError : Option String
  timestamp : Nat
  deriving Repr, DecidableEq

/-- A session record of the `activeSessions` map. -/
structure Session where
  startTime : Nat
  chunkCount : Nat
  status : String
  uploads : List UploadRecord
  lastChunkTime : Option Nat := none
  endTime : Option Nat := none
  deriving Repr, DecidableEq

/-- The backend's mutable state: multer temp files, permanent local files
under `uploads/`, objects in the GCS bucket, every signed-URL request
issued so far, and the `activeSessions` map (as an association list). -/
structure ServerState where
  tempFiles : List String
  localFiles : List String
  gcsObjects : List String
  signedUrlRequests : List SignedUrlRequest
  activeSessions : List (String × Session)
  deriving Repr, DecidableEq

/-- The GCS environment of one request: whether GCS is enabled
(`GCS_ENABLED`) and whether `bucket.upload` throws (with its message). -/
structure GcsEnv where
  enabled : Bool
  uploadError : Option String
  deriving Repr, DecidableEq

/-- The value `uploadToGCPImmediately` resolves with: success (with
`gcsUri`, `presignedUrl`, `expiresAt`), the GCS-disabled shortcut
(`{success: false, reason: 'GCS_DISABLED'}`), or a caught upload error
(`{success: false, error}`). -/
inductive GcsResult where
  | ok (gcsUri presignedUrl : String) (expiresAt : Nat)
  | disabled
  | err (msg : String)
  deriving Repr, DecidableEq

/-- Projection `gcsResult.success` of the JS result object. -/
def GcsResult.isSuccess : GcsResult → Bool
  | .ok _ _ _ => true
  | .disabled => false
  | .err _ => false

/-- Projection `gcsResult.error` of the JS result object (absent on success and on
the disabled shortcut). -/
def GcsResult.errorMsg : GcsResult → Option String
  | .ok _ _ _ => none
  | .disabled => none
  | .err msg => some msg

/-- Embedding of `uploadToGCPImmediately(localFilePath, gcsPath,
metadata)`: with GCS disabled it returns the shortcut; a failing
`bucket.upload` is caught and reported; otherwise the object is stored,
one signed-URL request with action `'read'` and expiry `Date.now() +
48*60*60*1000` is issued, and the result carries the `gs://` URI, the
URL, and `expiresAt` 48 hours from now. -/
def uploadToGCPImmediately (env : GcsEnv) (now : Nat)
    (localFilePath gcsPath : String) (st : ServerState) :
    GcsResult × ServerState :=
  if !env.enabled then
    (.disabled, st)
  else
    match env.uploadError with
    | some msg => (.err msg, st)
    | none =>
      let st := { st with gcsObjects := st.gcsObjects ++ [gcsPath] }
      let request : SignedUrlRequest :=
        { action := "read", expires := now + 48 * 60 * 60 * 1000 }
      let st := { st with
        signedUrlRequests := st.signedUrlRequests ++ [request] }
      (.ok ("gs://" ++ BUCKET_NAME ++ "/" ++ gcsPath)
        (mkPresignedUrl gcsPath request.expires)
        (now + 48 * 60 * 60 * 1000), st)

/-- Embedding of `moveToUploads(tempPath, sessionId, chunkIndex,
deviceId)`: `fs.copyFile` the temp file to
`uploads/<deviceId>/<sessionId>/chunk_<epochSeconds>.mp4` and return the
permanent path (`chunkIndex` is accepted but unused, as in the source). -/
def moveToUploads (now : Nat) (tempPath sessionId : String)
    (chunkIndex : Nat) (deviceId : String) (st : ServerState) :
    String × ServerState :=
  let _ := tempPath
  let _ := chunkIndex
  let permanentPath := "uploads/" ++ deviceId ++ "/" ++ sessionId
    ++ "/chunk_" ++ toString (now / 1000) ++ ".mp4"
  (permanentPath, { st with localFiles := st.localFiles ++ [permanentPath] })

/-- Embedding of `cleanupTempFile`: `fs.unlink` the temp file. -/
def cleanupTempFile (path : String) (st : ServerState) : ServerState :=
  { st with tempFiles := st.tempFiles.filter (· ≠ path) }

/-- JS `x || d` for an optional number (`0` is falsy). -/
def orDefaultNat (v : Option Nat) (d : Nat) : Nat :=
  match v with
  | some n => if n = 0 then d else n
  | none => d

/-- JS `x || d` for an optional string (`''` is falsy). -/
def orDefaultStr (v : Option String) (d : String) : String :=
  match v with
  | some s => if s = "" then d else s
  | none => d

/-- The parsed metadata JSON of an upload request (the fields the handler
reads). -/
structure ChunkMetadata where
  chunkIndex : Option Nat := none
  sessionId : Option String := none
  deviceId : Option String := none
  deriving Repr, DecidableEq

/-- A `POST /upload-chunk` request after multer: the temp path of the
video file (if one was sent), the temp path of the metadata file (if one
was sent), and its parsed contents. -/
structure UploadChunkRequest where
  videoFile : Option String
  metadataFile : Option String
  metadata : ChunkMetadata
  deriving Repr, DecidableEq

/-- The `gcsUpload` object of the 200 response. -/
structure GcsUploadInfo where
  success : Bool
  gcsUri : Option String
  presignedUrl : Option String
  expiresAt : Option Nat
  error : Option String
  deriving Repr, DecidableEq

/-- The JSON response of `POST /upload-chunk`, with its HTTP status. -/
structure UploadChunkResponse where
  status : Nat
  success : Bool
  uploadId : String
  sessionId : Option String := none
  chunkIndex : Option Nat := none
  localPath : Option String := none
  gcsUpload : Option GcsUploadInfo := none
  error : Option String := none
  deriving Repr, DecidableEq

/-- The map update of `if (activeSessions.has(sessionId)) {
session.chunkCount++; session.lastChunkTime = new Date(); }`. -/
def bumpChunkCount (sid : String) (now : Nat)
    (sessions : List (String × Session)) : List (String × Session) :=
  sessions.map fun p =>
    if p.1 = sid then
      (p.1, { p.2 with chunkCount := p.2.chunkCount + 1,
                       lastChunkTime := some now })
    else p

/-- The map update of `if (activeSessions.has(sessionId)) {
session.uploads.push(...) }`. -/
def pushUpload (sid : String) (record : UploadRecord)
    (sessions : List (String × Session)) : List (String × Session) :=
  sessions.map fun p =>
    if p.1 = sid then (p.1, { p.2 with uploads := p.2.uploads ++ [record] })
    else p

/-- Embedding of the `POST /upload-chunk` handler (the non-throwing
paths): reject a request without a video file with 400; otherwise bump the
named session's chunk counter, copy the temp file to permanent storage,
upload to GCS, record the upload in the session, delete the temp files,
and answer 200 with the `gcsUpload` outcome. -/
def uploadChunkHandler (env : GcsEnv) (now : Nat) (uploadId : String)
    (st : ServerState) (req : UploadChunkRequest) :
    UploadChunkResponse × ServerState :=
  match req.videoFile with
  | none =>
    ({ status := 400, success := false, uploadId := uploadId,
       error := some "No video file provided" }, st)
  | some videoPath =>
    let chunkIndex := orDefaultNat req.metadata.chunkIndex now
    let sessionId := orDefaultStr req.metadata.sessionId "unknown"
    let deviceId := orDefaultStr req.metadata.deviceId "unknown"
    -- Update session info
    let st := { st with
      activeSessions := bumpChunkCount sessionId now st.activeSessions }
    -- Generate GCS path
    let gcsPath := "devices/" ++ deviceId ++ "/" ++ toString (now / 1000)
      ++ ".mp4"
    -- 1. Move to permanent storage immediately (for backup)
    let (permanentPath, st) :=
      moveToUploads now videoPath sessionId chunkIndex deviceId st
    -- 2. Upload to GCS immediately using the temp file
    let (gcsResult, st) :=
      uploadToGCPImmediately env now videoPath gcsPath st
    -- 3. Store upload info for session tracking
    let record : UploadRecord :=
      { uploadId := uploadId
        chunkIndex := chunkIndex
        gcsUri := match gcsResult with
                  | .ok uri _ _ => some uri
                  | _ => none
        presignedUrl := match gcsResult with
                        | .ok _ url _ => some url
                        | _ => none
        expiresAt := match gcsResult with
                     | .ok _ _ expiresAt => some expiresAt
                     | _ => none
        localPath := permanentPath
        uploadStatus := if gcsResult.isSuccess then "completed" else "failed"
        gcsError := gcsResult.errorMsg
        timestamp := now }
    let st := { st with
      activeSessions := pushUpload sessionId record st.activeSessions }
    -- 4./5. Clean up the multer temp files
    let st := cleanupTempFile videoPath st
    let st := match req.metadataFile with
              | some metadataPath => cleanupTempFile metadataPath st
              | none => st
    ({ status := 200, success := true, uploadId := uploadId,
       sessionId := some sessionId, chunkIndex := some chunkIndex,
       localPath := some permanentPath,
       gcsUpload := some
         { success := gcsResult.isSuccess
           gcsUri := match gcsResult with
                     | .ok uri _ _ => some uri
                     | _ => none
           presignedUrl := match gcsResult with
                           | .ok _ url _ => some url
                           | _ => none
           expiresAt := match gcsResult with
                        | .ok _ _ expiresAt => some expiresAt
                        | _ => none
           error := gcsResult.errorMsg } }, st)

/-- The JSON response of `POST /stop-recording`. -/
structure StopRecordingResponse where
  success : Bool
  sessionId : Option String := none
  durationMs : Option Nat := none
  chunksProcessed : Option Nat := none
  uploadsCount : Option Nat := none
  message : Option String := none
  deriving Repr, DecidableEq

/-- Embedding of the `POST /stop-recording` handler: for a truthy
`sessionId` present in `activeSessions` it marks the session stopped and
reports a summary whose `chunksProcessed` is the session's `chunkCount`;
otherwise it answers `'No active session to stop'`. -/
def stopRecordingHandler (now : Nat) (st : ServerState)
    (sessionId : Option String) : StopRecordingResponse × ServerState :=
  match sessionId with
  | some sid =>
    if sid = "" then
      ({ success := true, message := some "No active session to stop" }, st)
    else
      match st.activeSessions.lookup sid with
      | some session =>
        let stopped := { session with status := "stopped",
                                      endTime := some now }
        let updated := st.activeSessions.map
          (fun p => if p.1 = sid then (p.1, stopped) else p)
        let st := { st with activeSessions := updated }
        ({ success := true, sessionId := some sid,
           durationMs := some (now - session.startTime),
           chunksProcessed := some session.chunkCount,
           uploadsCount := some session.uploads.length }, st)
      | none =>
        ({ success := true, message := some "No active session to stop" },
         st)
  | none =>
    ({ success := true, message := some "No active session to stop" }, st)

/-- One entry of the `GET /videos` response: the GCS file, the signed-URL
request issued for it, and the reported URL and `expiresAt`. -/
structure VideoEntry where
  filename : String
  gcsUri : String
  urlRequest : SignedUrlRequest
  presignedUrl : String
  expiresAt : Nat
  deriving Repr, DecidableEq

/-- Embedding of the video-listing endpoints (`GET /videos` and
`GET /videos/device/:deviceId`): for every bucket object under the prefix
whose name ends in `.mp4`/`.mov`/`.mkv`, re-generate a presigned URL with
action `'read'` and expiry `Date.now() + 48*60*60*1000`, reporting
`expiresAt` the same way. -/
def listVideosHandler (now : Nat) (fileNames : List String) :
    List VideoEntry :=
  (fileNames.filter fun n =>
    jsEndsWith n ".mp4" || jsEndsWith n ".mov" || jsEndsWith n ".mkv").map
    fun n =>
      { filename := n
        gcsUri := "gs://" ++ BUCKET_NAME ++ "/" ++ n
        urlRequest := { action := "read",
                        expires := now + 48 * 60 * 60 * 1000 }
        presignedUrl := mkPresignedUrl n (now + 48 * 60 * 60 * 1000)
        expiresAt := now + 48 * 60 * 60 * 1000 }

end Backend

end Heimdall

namespace Heimdall

/-- Helper: cons-step of `List.lookup` at the head key. -/
theorem lookup_cons_self {α : Type} (k : String) (v : α)
    (l : List (String × α)) : List.lookup k ((k, v) :: l) = some v := by
  rw [List.lookup_cons]
  simp

/-- Helper: cons-step of `List.lookup` past a different head key. -/
theorem lookup_cons_ne {α : Type} (k pk : String) (v : α)
    (l : List (String × α)) (h : k ≠ pk) :
    List.lookup k ((pk, v) :: l) = List.lookup k l := by
  rw [List.lookup_cons]
  have hb : (k == pk) = false := beq_eq_false_iff_ne.mpr h
  rw [hb]

/-- Helper: looking up a key after a guarded per-entry map update. -/
theorem lookup_map_ite {α : Type} (l : List (String × α)) (sid k : String)
    (f : α → α) :
    List.lookup k (l.map fun p => if p.1 = sid then (p.1, f p.2) else p)
      = if k = sid then (List.lookup k l).map f else List.lookup k l := by
  induction l with
  | nil =>
    simp only [List.map_nil, List.lookup]
    split <;> rfl
  | cons p l ih =>
    obtain ⟨pk, pv⟩ := p
    simp only [List.map_cons]
    by_cases hpk : pk = sid
    · subst hpk
      rw [if_pos rfl]
      by_cases hkp : k = pk
      · subst hkp
        rw [lookup_cons_self, if_pos rfl, lookup_cons_self]
        rfl
      · rw [lookup_cons_ne _ _ _ _ hkp, if_neg hkp,
          lookup_cons_ne _ _ _ _ hkp, ih, if_neg hkp]
    · rw [if_neg hpk]
      by_cases hkp : k = pk
      · subst hkp
        rw [lookup_cons_self, if_neg hpk, lookup_cons_self]
      · rw [lookup_cons_ne _ _ _ _ hkp, lookup_cons_ne _ _ _ _ hkp, ih]

/-- Helper: an absent lookup key differs from every key of the list. -/
theorem forall_ne_of_lookup_none {α : Type} (l : List (String × α))
    (sid : String) (h : List.lookup sid l = none) :
    ∀ p ∈ l, p.1 ≠ sid := by
  induction l with
  | nil => simp
  | cons p l ih =>
    obtain ⟨pk, pv⟩ := p
    by_cases hpk : sid = pk
    · subst hpk
      simp [List.lookup] at h
    · have hb : (sid == pk) = false := beq_eq_false_iff_ne.mpr hpk
      simp only [List.lookup, hb] at h
      intro q hq
      rcases List.mem_cons.mp hq with rfl | hq
      · simpa using Ne.symm hpk
      · exact ih h q hq

/-- Helper: a guarded per-entry map update at an absent key is the
identity. -/
theorem map_ite_id_of_forall_ne {α : Type} (l : List (String × α))
    (sid : String) (f : α → α) (h : ∀ p ∈ l, p.1 ≠ sid) :
    (l.map fun p => if p.1 = sid then (p.1, f p.2) else p) = l := by
  induction l with
  | nil => rfl
  | cons p l ih =>
    simp only [List.map_cons]
    rw [if_neg (h p (by simp)), ih (fun q hq => h q (by simp [hq]))]

/-- Helper: lookup through `pushUpload`. -/
theorem lookup_pushUpload (sid : String) (record : Backend.UploadRecord)
    (k : String) (sessions : List (String × Backend.Session)) :
    List.lookup k (Backend.pushUpload sid record sessions)
      = if k = sid then
          (List.lookup k sessions).map
            (fun s => { s with uploads := s.uploads ++ [record] })
        else List.lookup k sessions :=
  lookup_map_ite sessions sid k
    (fun s => { s with uploads := s.uploads ++ [record] })

/-- Helper: lookup through `bumpChunkCount`. -/
theorem lookup_bumpChunkCount (sid : String) (now : Nat) (k : String)
    (sessions : List (String × Backend.Session)) :
    List.lookup k (Backend.bumpChunkCount sid now sessions)
      = if k = sid then
          (List.lookup k sessions).map
            (fun s => { s with chunkCount := s.chunkCount + 1,
                               lastChunkTime := some now })
        else List.lookup k sessions :=
  lookup_map_ite sessions sid k
    (fun s => { s with chunkCount := s.chunkCount + 1,
                       lastChunkTime := some now })

/-- Helper: `pushUpload` at an absent session id is the identity. -/
theorem pushUpload_id_of_absent (sid : String)
    (record : Backend.UploadRecord)
    (sessions : List (String × Backend.Session))
    (h : List.lookup sid sessions = none) :
    Backend.pushUpload sid record sessions = sessions :=
  map_ite_id_of_forall_ne sessions sid
    (fun s => { s with uploads := s.uploads ++ [record] })
    (forall_ne_of_lookup_none sessions sid h)

/-- Helper: `bumpChunkCount` at an absent session id is the identity. -/
theorem bumpChunkCount_id_of_absent (sid : String) (now : Nat)
    (sessions : List (String × Backend.Session))
    (h : List.lookup sid sessions = none) :
    Backend.bumpChunkCount sid now sessions = sessions :=
  map_ite_id_of_forall_ne sessions sid
    (fun s => { s with chunkCount := s.chunkCount + 1,
                       lastChunkTime := some now })
    (forall_ne_of_lookup_none sessions sid h)

/-- Helper for C4: the final `activeSessions` of a handled upload request
is a `pushUpload` applied after a `bumpChunkCount`, both at the session id
named by the metadata. -/
theorem uploadChunkHandler_activeSessions (env : Backend.GcsEnv) (now : Nat)
    (uploadId : String) (st : Backend.ServerState)
    (req : Backend.UploadChunkRequest) (videoPath : String)
    (hv : req.videoFile = some videoPath) :
    ∃ record,
      (Backend.uploadChunkHandler env now uploadId st req).2.activeSessions
        = Backend.pushUpload
            (Backend.orDefaultStr req.metadata.sessionId "unknown") record
            (Backend.bumpChunkCount
              (Backend.orDefaultStr req.metadata.sessionId "unknown") now
              st.activeSessions) := by
  obtain ⟨vf, mf, md⟩ := req
  simp only at hv
  subst hv
  obtain ⟨enabled, uploadError⟩ := env
  cases enabled <;> cases uploadError <;> cases mf <;> exact ⟨_, rfl⟩

/-- C4: the backend keeps per-session chunk counters. For a handled
`POST /upload-chunk` request whose metadata names a (truthy) session id:
if that id is in `activeSessions`, exactly that session's `chunkCount`
grows by one and its `lastChunkTime` becomes the request time, while every
other session's record is untouched; if the id is unknown, the whole
session map is unchanged. Independently, `POST /stop-recording` for a
session present in the map reports `chunksProcessed` equal to that
session's `chunkCount`. -/
theorem C4_per_session_chunk_counters (env : Backend.GcsEnv) (now : Nat)
    (uploadId : String) (st : Backend.ServerState)
    (req : Backend.UploadChunkRequest) (videoPath sid : String)
    (hv : req.videoFile = some videoPath)
    (hs : req.metadata.sessionId = some sid) (hsne : sid ≠ "") :
    (∀ sess, st.activeSessions.lookup sid = some sess →
      ∃ sess',
        (Backend.uploadChunkHandler env now uploadId st
          req).2.activeSessions.lookup sid = some sess'
        ∧ sess'.chunkCount = sess.chunkCount + 1
        ∧ sess'.lastChunkTime = some now
        ∧ sess'.startTime = sess.startTime
        ∧ sess'.status = sess.status)
    ∧ (∀ k, k ≠ sid →
        (Backend.uploadChunkHandler env now uploadId st
          req).2.activeSessions.lookup k = st.activeSessions.lookup k)
    ∧ (st.activeSessions.lookup sid = none →
        (Backend.uploadChunkHandler env now uploadId st
          req).2.activeSessions = st.activeSessions)
    ∧ (∀ st2 : Backend.ServerState, ∀ sess2,
        st2.activeSessions.lookup sid = some sess2 →
        (Backend.stopRecordingHandler now st2 (some sid)).1.chunksProcessed
          = some sess2.chunkCount) := by
  obtain ⟨record, hsess⟩ :=
    uploadChunkHandler_activeSessions env now uploadId st req videoPath hv
  have hS : Backend.orDefaultStr req.metadata.sessionId "unknown" = sid := by
    rw [hs]
    simp [Backend.orDefaultStr, hsne]
  rw [hS] at hsess
  refine ⟨?_, ?_, ?_, ?_⟩
  · intro sess hlk
    rw [hsess, lookup_pushUpload, if_pos rfl, lookup_bumpChunkCount,
      if_pos rfl, hlk]
    exact ⟨_, rfl, rfl, rfl, rfl, rfl⟩
  · intro k hk
    rw [hsess, lookup_pushUpload, if_neg hk, lookup_bumpChunkCount,
      if_neg hk]
  · intro hnone
    rw [hsess, bumpChunkCount_id_of_absent _ _ _ hnone,
      pushUpload_id_of_absent _ _ _ hnone]
  · intro st2 sess2 hlk
    rw [Backend.stopRecordingHandler]
    simp only [if_neg hsne, hlk]

/-- Witness for C4: uploading a chunk for session `"s1"` (present with
chunk count 2, next to an untouched `"s2"`) bumps `"s1"` to 3 with the
upload time recorded, leaves `"s2"` alone, and `stop-recording` then
reports 3 chunks processed. -/
theorem C4_per_session_chunk_counters_witness :
    (∃ sess',
      (Backend.uploadChunkHandler ⟨true, none⟩ 1000 "up1"
        { tempFiles := ["tmp/v1"], localFiles := [], gcsObjects := [],
          signedUrlRequests := [],
          activeSessions :=
            [("s1", { startTime := 5, chunkCount := 2, status := "active",
                      uploads := [] }),
             ("s2", { startTime := 6, chunkCount := 7, status := "active",
                      uploads := [] })] }
        { videoFile := some "tmp/v1", metadataFile := none,
          metadata := { sessionId := some "s1",
                        deviceId := some "d1" } }).2.activeSessions.lookup
        "s1" = some sess'
      ∧ sess'.chunkCount = 3 ∧ sess'.lastChunkTime = some 1000
      ∧ sess'.startTime = 5 ∧ sess'.status = "active") := by
  have h := (C4_per_session_chunk_counters ⟨true, none⟩ 1000 "up1"
    { tempFiles := ["tmp/v1"], localFiles := [], gcsObjects := [],
      signedUrlRequests := [],
      activeSessions :=
        [("s1", { startTime := 5, chunkCount := 2, status := "active",
                  uploads := [] }),
         ("s2", { startTime := 6, chunkCount := 7, status := "active",
                  uploads := [] })] }
    { videoFile := some "tmp/v1", metadataFile := none,
      metadata := { sessionId := some "s1", deviceId := some "d1" } }
    "tmp/v1" "s1" rfl rfl (by decide)).1
  obtain ⟨sess', hkl, hc, hl, hst, hstat⟩ :=
    h { startTime := 5, chunkCount := 2, status := "active",
        uploads := [] } (by rfl)
  exact ⟨sess', hkl, by rw [hc], by rw [hl], by rw [hst], by rw [hstat]⟩

/-- C3: the temp→permanent→cloud lifecycle of `POST /upload-chunk`.
A request without a video file is rejected with 400 and leaves the state
untouched. A request with a video file is answered 200: the chunk is
copied to `uploads/<deviceId>/<sessionId>/chunk_<epochSeconds>.mp4` in
permanent local storage, and the multer temp files (video and metadata)
are deleted. When GCS is enabled and the upload succeeds, the object lands
under `devices/<deviceId>/` with a presigned URL in the response; when the
GCS step fails, the response is still 200 with `gcsUpload.success = false`
carrying the error message, and the chunk stays in permanent local
storage. -/
theorem C3_upload_chunk_lifecycle (env : Backend.GcsEnv) (now : Nat)
    (uploadId : String) (st : Backend.ServerState)
    (req : Backend.UploadChunkRequest) :
    (req.videoFile = none →
      Backend.uploadChunkHandler env now uploadId st req =
        ({ status := 400, success := false, uploadId := uploadId,
           error := some "No video file provided" }, st))
    ∧ (∀ videoPath, req.videoFile = some videoPath →
        (Backend.uploadChunkHandler env now uploadId st req).1.status = 200
        ∧ (Backend.uploadChunkHandler env now uploadId st
            req).1.success = true
        ∧ (Backend.uploadChunkHandler env now uploadId st req).1.localPath
          = some ("uploads/"
              ++ Backend.orDefaultStr req.metadata.deviceId "unknown" ++ "/"
              ++ Backend.orDefaultStr req.metadata.sessionId "unknown"
              ++ "/chunk_" ++ toString (now / 1000) ++ ".mp4")
        ∧ ("uploads/"
            ++ Backend.orDefaultStr req.metadata.deviceId "unknown" ++ "/"
            ++ Backend.orDefaultStr req.metadata.sessionId "unknown"
            ++ "/chunk_" ++ toString (now / 1000) ++ ".mp4")
          ∈ (Backend.uploadChunkHandler env now uploadId st
              req).2.localFiles
        ∧ videoPath ∉ (Backend.uploadChunkHandler env now uploadId st
            req).2.tempFiles
        ∧ (∀ metadataPath, req.metadataFile = some metadataPath →
            metadataPath ∉ (Backend.uploadChunkHandler env now uploadId st
              req).2.tempFiles)
        ∧ (env.enabled = true → env.uploadError = none →
            ("devices/"
              ++ Backend.orDefaultStr req.metadata.deviceId "unknown"
              ++ "/" ++ toString (now / 1000) ++ ".mp4")
              ∈ (Backend.uploadChunkHandler env now uploadId st
                  req).2.gcsObjects
            ∧ (Backend.uploadChunkHandler env now uploadId st
                req).1.gcsUpload =
              some { success := true
                     gcsUri := some ("gs://" ++ Backend.BUCKET_NAME ++ "/"
                       ++ ("devices/"
                         ++ Backend.orDefaultStr req.metadata.deviceId
                              "unknown"
                         ++ "/" ++ toString (now / 1000) ++ ".mp4"))
                     presignedUrl := some (Backend.mkPresignedUrl
                       ("devices/"
                         ++ Backend.orDefaultStr req.metadata.deviceId
                              "unknown"
                         ++ "/" ++ toString (now / 1000) ++ ".mp4")
                       (now + 48 * 60 * 60 * 1000))
                     expiresAt := some (now + 48 * 60 * 60 * 1000)
                     error := none })
        ∧ (∀ msg, env.enabled = true → env.uploadError = some msg →
            (Backend.uploadChunkHandler env now uploadId st
              req).1.gcsUpload =
              some { success := false, gcsUri := none,
                     presignedUrl := none, expiresAt := none,
                     error := some msg }
            ∧ (Backend.uploadChunkHandler env now uploadId st
                req).2.gcsObjects = st.gcsObjects)) := by
  obtain ⟨vf, mf, md⟩ := req
  constructor
  · intro h
    simp only at h
    subst h
    rfl
  · intro videoPath hv
    simp only at hv
    subst hv
    obtain ⟨enabled, uploadError⟩ := env
    cases enabled <;> cases uploadError <;> cases mf <;>
      simp [Backend.uploadChunkHandler, Backend.moveToUploads,
        Backend.uploadToGCPImmediately, Backend.cleanupTempFile,
        Backend.GcsResult.isSuccess, Backend.GcsResult.errorMsg,
        Backend.bumpChunkCount, Backend.pushUpload,
        String.append_assoc]

/-- Witness for C3 at a concrete request: device `d1`, session `s1`,
GCS enabled and succeeding at `now = 5000`; the response is 200 with the
permanent path recorded, the temp file is gone from the temp directory,
and the GCS object with its 48-hour URL is reported. -/
theorem C3_upload_chunk_lifecycle_witness :
    (Backend.uploadChunkHandler ⟨true, none⟩ 5000 "up1"
      { tempFiles := ["tmp/v1"], localFiles := [], gcsObjects := [],
        signedUrlRequests := [], activeSessions := [] }
      { videoFile := some "tmp/v1", metadataFile := none,
        metadata := { sessionId := some "s1",
                      deviceId := some "d1" } }).1.status = 200
    ∧ ("uploads/d1/s1/chunk_5.mp4" ∈
        (Backend.uploadChunkHandler ⟨true, none⟩ 5000 "up1"
          { tempFiles := ["tmp/v1"], localFiles := [], gcsObjects := [],
            signedUrlRequests := [], activeSessions := [] }
          { videoFile := some "tmp/v1", metadataFile := none,
            metadata := { sessionId := some "s1",
                          deviceId := some "d1" } }).2.localFiles)
    ∧ ("tmp/v1" ∉
        (Backend.uploadChunkHandler ⟨true, none⟩ 5000 "up1"
          { tempFiles := ["tmp/v1"], localFiles := [], gcsObjects := [],
            signedUrlRequests := [], activeSessions := [] }
          { videoFile := some "tmp/v1", metadataFile := none,
            metadata := { sessionId := some "s1",
                          deviceId := some "d1" } }).2.tempFiles) := by
  have h := (C3_upload_chunk_lifecycle ⟨true, none⟩ 5000 "up1"
    { tempFiles := ["tmp/v1"], localFiles := [], gcsObjects := [],
      signedUrlRequests := [], activeSessions := [] }
    { videoFile := some "tmp/v1", metadataFile := none,
      metadata := { sessionId := some "s1",
                    deviceId := some "d1" } }).2 "tmp/v1" rfl
  obtain ⟨h200, _, _, hlocal, htemp, _⟩ := h
  refine ⟨h200, ?_, htemp⟩
  have : Backend.orDefaultStr (some "d1") "unknown" = "d1" := by decide
  simpa [Backend.orDefaultStr, toString] using hlocal

/-- C6: every presigned URL the backend produces is requested with action
`'read'` and an expiry of exactly 48 hours (`48*60*60*1000` ms) from the
moment of generation, and the `expiresAt` reported alongside equals that
same deadline — both for `uploadToGCPImmediately` (chunk upload time) and
for the video-listing endpoints that re-generate URLs. -/
theorem C6_presigned_urls_read_48h (env : Backend.GcsEnv) (now : Nat)
    (localFilePath gcsPath : String) (st : Backend.ServerState)
    (fileNames : List String) :
    (∀ uri url expiresAt st',
      Backend.uploadToGCPImmediately env now localFilePath gcsPath st
        = (.ok uri url expiresAt, st') →
      expiresAt = now + 48 * 60 * 60 * 1000
      ∧ st'.signedUrlRequests = st.signedUrlRequests
          ++ [{ action := "read", expires := now + 48 * 60 * 60 * 1000 }])
    ∧ (∀ v ∈ Backend.listVideosHandler now fileNames,
        v.urlRequest.action = "read"
        ∧ v.urlRequest.expires = now + 48 * 60 * 60 * 1000
        ∧ v.expiresAt = now + 48 * 60 * 60 * 1000) := by
  constructor
  · intro uri url expiresAt st' h
    obtain ⟨enabled, uploadError⟩ := env
    cases enabled with
    | false =>
      rw [Backend.uploadToGCPImmediately] at h
      cases h
    | true =>
      cases uploadError with
      | some msg =>
        rw [Backend.uploadToGCPImmediately] at h
        simp at h
      | none =>
        rw [Backend.uploadToGCPImmediately] at h
        simp only [Bool.not_true, Bool.false_eq_true, if_false] at h
        obtain ⟨h1, h2⟩ := Prod.mk.injEq .. ▸ h
        refine ⟨?_, ?_⟩
        · cases h1; rfl
        · rw [← h2]
  · intro v hv
    rw [Backend.listVideosHandler] at hv
    simp only [List.mem_map] at hv
    obtain ⟨n, _, rfl⟩ := hv
    exact ⟨rfl, rfl, rfl⟩

/-- Witness for C6: a successful upload at `now = 1000` issues exactly one
signed-URL request with action `'read'` expiring at `1000 + 172800000`,
and reports the same `expiresAt`. -/
theorem C6_presigned_urls_read_48h_witness :
    (1000 : Nat) + 48 * 60 * 60 * 1000 = 172801000
    ∧ ∀ uri url expiresAt st',
        Backend.uploadToGCPImmediately ⟨true, none⟩ 1000 "tmp/v1"
          "devices/d1/1.mp4"
          { tempFiles := [], localFiles := [], gcsObjects := [],
            signedUrlRequests := [], activeSessions := [] }
          = (.ok uri url expiresAt, st') →
        expiresAt = 1000 + 48 * 60 * 60 * 1000
        ∧ st'.signedUrlRequests =
            [{ action := "read", expires := 1000 + 48 * 60 * 60 * 1000 }] :=
  ⟨by norm_num,
   fun uri url expiresAt st' h =>
    (C6_presigned_urls_read_48h ⟨true, none⟩ 1000 "tmp/v1"
      "devices/d1/1.mp4"
      { tempFiles := [], localFiles := [], gcsObjects := [],
        signedUrlRequests := [], activeSessions := [] } []).1
      uri url expiresAt st' h⟩

end Heimdall

namespace Heimdall

/-! ## Video Intelligence endpoints: GCS URI validation
(`video-intelligence-api.js` and the `GET /analysis/:gcsUri` route of
`backend/server.js`)

`POST /analyze-video-complete` and `POST /start-video-annotation` reject a
missing (falsy) `gcsUri` and one that does not start with `gs://` with 400
before getting an access token or issuing the `videos:annotate` request;
`GET /analysis/:gcsUri` instead completes a bare object path to
`gs://<bucket>/<path>` before the lookup. -/

namespace VideoIntel

/-- Outcome of `getAccessToken()` (throws on failure). -/
inductive TokenResult where
  | ok (token : String)
  | failed (msg : String)
  deriving Repr, DecidableEq

/-- Outcome of the `videos:annotate` POST issued by
`startVideoAnnotation`. -/
inductive AnnotateResult where
  | started (operationName : String)
  | failed (msg : String)
  deriving Repr, DecidableEq

/-- The environment of one analyze request: what the auth library, the
annotate POST, and the status polling would answer. -/
structure AnnotateEnv where
  token : TokenResult
  annotate : AnnotateResult
  observe : Nat → PollResponse

/-- The JSON response of the analyze endpoints, with HTTP status. -/
structure EndpointResponse where
  status : Nat
  success : Bool
  error : Option String
  deriving Repr, DecidableEq

/-- Embedding of `POST /analyze-video-complete`: validate `gcsUri`
(falsy → 400 `'gcsUri is required'`; not `gs://`-prefixed → 400
`'gcsUri must start with gs://'`), then get a token, start the
annotation, and poll to completion. The boolean reports whether the
`videos:annotate` request was issued. -/
def analyzeVideoComplete (env : AnnotateEnv) (gcsUri : Option String)
    (maxWaitTime : Nat := 300000) : EndpointResponse × Bool :=
  match gcsUri with
  | none =>
    ({ status := 400, success := false,
       error := some "gcsUri is required" }, false)
  | some uri =>
    if uri = "" then
      ({ status := 400, success := false,
         error := some "gcsUri is required" }, false)
    else if !Backend.jsStartsWith uri "gs://" then
      ({ status := 400, success := false,
         error := some "gcsUri must start with gs://" }, false)
    else
      match env.token with
      | .failed msg =>
        ({ status := 500, success := false, error := some msg }, false)
      | .ok _ =>
        match env.annotate with
        | .failed msg =>
          ({ status := 500, success := false, error := some msg }, true)
        | .started operationName =>
          match pollOperationStatus operationName env.observe maxWaitTime
          with
          | .ok _ => ({ status := 200, success := true, error := none },
                      true)
          | .thrown msg =>
            ({ status := 500, success := false, error := some msg }, true)

/-- Embedding of `POST /start-video-annotation`: the same validation, then
get a token and start the annotation without polling. -/
def startVideoAnnotationRoute (env : AnnotateEnv)
    (gcsUri : Option String) : EndpointResponse × Bool :=
  match gcsUri with
  | none =>
    ({ status := 400, success := false,
       error := some "gcsUri is required" }, false)
  | some uri =>
    if uri = "" then
      ({ status := 400, success := false,
         error := some "gcsUri is required" }, false)
    else if !Backend.jsStartsWith uri "gs://" then
      ({ status := 400, success := false,
         error := some "gcsUri must start with gs://" }, false)
    else
      match env.token with
      | .failed msg =>
        ({ status := 500, success := false, error := some msg }, false)
      | .ok _ =>
        match env.annotate with
        | .failed msg =>
          ({ status := 500, success := false, error := some msg }, true)
        | .started _ =>
          ({ status := 200, success := true, error := none }, true)

/-- Embedding of `const fullGcsUri = gcsUri.startsWith('gs://') ? gcsUri :
`gs://${BUCKET_NAME}/${gcsUri}`` of `GET /analysis/:gcsUri`. -/
def analysisLookupKey (gcsUri : String) : String :=
  if Backend.jsStartsWith gcsUri "gs://" then gcsUri
  else "gs://" ++ Backend.BUCKET_NAME ++ "/" ++ gcsUri

/-- The JSON response of `GET /analysis/:gcsUri`. -/
structure AnalysisResponse where
  status : Nat
  success : Bool
  gcsUri : String
  analysis : Option String
  deriving Repr, DecidableEq

/-- Embedding of `GET /analysis/:gcsUri`: complete the URI with
`analysisLookupKey`, then look it up in the `analysisResults` map,
answering 404 when absent. -/
def getAnalysisHandler (analysisResults : List (String × String))
    (gcsUri : String) : AnalysisResponse :=
  let fullGcsUri := analysisLookupKey gcsUri
  match analysisResults.lookup fullGcsUri with
  | some analysis =>
    { status := 200, success := true, gcsUri := fullGcsUri,
      analysis := some analysis }
  | none =>
    { status := 404, success := false, gcsUri := fullGcsUri,
      analysis := none }

end VideoIntel

/-- C8: requests to `POST /analyze-video-complete` or
`POST /start-video-annotation` whose `gcsUri` is absent or does not start
with `gs://` get HTTP 400 and no annotation operation is started, whatever
the cloud environment would have answered; `GET /analysis/:gcsUri` instead
prefixes a bare object path with `gs://<bucket>/` and looks that key up. -/
theorem C8_gcs_uri_validation (env : VideoIntel.AnnotateEnv)
    (maxWaitTime : Nat) (analysisResults : List (String × String)) :
    ((VideoIntel.analyzeVideoComplete env none maxWaitTime).1.status = 400
      ∧ (VideoIntel.analyzeVideoComplete env none maxWaitTime).2 = false)
    ∧ (∀ uri, Backend.jsStartsWith uri "gs://" = false →
        (VideoIntel.analyzeVideoComplete env (some uri)
          maxWaitTime).1.status = 400
        ∧ (VideoIntel.analyzeVideoComplete env (some uri) maxWaitTime).2
          = false)
    ∧ ((VideoIntel.startVideoAnnotationRoute env none).1.status = 400
      ∧ (VideoIntel.startVideoAnnotationRoute env none).2 = false)
    ∧ (∀ uri, Backend.jsStartsWith uri "gs://" = false →
        (VideoIntel.startVideoAnnotationRoute env (some uri)).1.status
          = 400
        ∧ (VideoIntel.startVideoAnnotationRoute env (some uri)).2 = false)
    ∧ (∀ uri, Backend.jsStartsWith uri "gs://" = false →
        VideoIntel.getAnalysisHandler analysisResults uri =
          (match analysisResults.lookup
              ("gs://" ++ Backend.BUCKET_NAME ++ "/" ++ uri) with
           | some analysis =>
             { status := 200, success := true,
               gcsUri := "gs://" ++ Backend.BUCKET_NAME ++ "/" ++ uri,
               analysis := some analysis }
           | none =>
             { status := 404, success := false,
               gcsUri := "gs://" ++ Backend.BUCKET_NAME ++ "/" ++ uri,
               analysis := none }))
    ∧ (∀ uri, Backend.jsStartsWith uri "gs://" = true →
        VideoIntel.analysisLookupKey uri = uri) := by
  refine ⟨⟨rfl, rfl⟩, ?_, ⟨rfl, rfl⟩, ?_, ?_, ?_⟩
  · intro uri hsw
    by_cases hne : uri = ""
    · subst hne
      exact ⟨rfl, rfl⟩
    · rw [VideoIntel.analyzeVideoComplete]
      rw [if_neg hne, if_pos (by rw [hsw]; rfl)]
      exact ⟨rfl, rfl⟩
  · intro uri hsw
    by_cases hne : uri = ""
    · subst hne
      exact ⟨rfl, rfl⟩
    · rw [VideoIntel.startVideoAnnotationRoute]
      rw [if_neg hne, if_pos (by rw [hsw]; rfl)]
      exact ⟨rfl, rfl⟩
  · intro uri hsw
    rw [VideoIntel.getAnalysisHandler]
    have hkey : VideoIntel.analysisLookupKey uri =
        "gs://" ++ Backend.BUCKET_NAME ++ "/" ++ uri := by
      rw [VideoIntel.analysisLookupKey, if_neg (by rw [hsw]; exact
        Bool.false_ne_true)]
    rw [hkey]
  · intro uri hsw
    rw [VideoIntel.analysisLookupKey, if_pos hsw]

/-- Witness for C8: the bare object path `devices/d1/1.mp4` is rejected by
the analyze endpoint without starting an annotation, and the analysis
lookup completes it to `gs://heimdall-cam/devices/d1/1.mp4`. -/
theorem C8_gcs_uri_validation_witness :
    ((VideoIntel.analyzeVideoComplete
        ⟨.ok "tok", .started "op", fun _ => .running⟩
        (some "devices/d1/1.mp4") 300000).1.status = 400
      ∧ (VideoIntel.analyzeVideoComplete
          ⟨.ok "tok", .started "op", fun _ => .running⟩
          (some "devices/d1/1.mp4") 300000).2 = false)
    ∧ VideoIntel.analysisLookupKey "devices/d1/1.mp4"
        = "gs://heimdall-cam/devices/d1/1.mp4" := by
  have h := C8_gcs_uri_validation
    ⟨.ok "tok", .started "op", fun _ => .running⟩ 300000 []
  refine ⟨h.2.1 "devices/d1/1.mp4" (by decide), ?_⟩
  have hkey := h.2.2.2.2.1 "devices/d1/1.mp4" (by decide)
  have : VideoIntel.getAnalysisHandler [] "devices/d1/1.mp4" =
      { status := 404, success := false,
        gcsUri := "gs://" ++ Backend.BUCKET_NAME ++ "/"
          ++ "devices/d1/1.mp4",
        analysis := none } := hkey
  have hg := congrArg VideoIntel.AnalysisResponse.gcsUri this
  simpa [VideoIntel.getAnalysisHandler] using hg

end Heimdall
